import Mathlib

/-!
# Verification of the Samsung s6e3ha8 MIPI-DSI panel sequencer

Shallow embedding of `drivers/gpu/drm/panel/panel-samsung-s6e3ha8.c`.
Each panel operation is a pure function from an environment (the outcomes
the external regulator / GPIO / DSI-link collaborators would return) and a
hardware state to a return code, a new hardware state, and the ordered
trace of externally observable effects (regulator toggles, reset-line
writes, delays, DCS commands).
-/

namespace S6e3ha8Panel

/-- Externally observable effects of the sequencer, in program order. -/
inductive Event where
  /-- `regulator_enable(supply[idx])` was called. -/
  | regEnable (idx : Nat)
  /-- `regulator_disable(supply[idx])` was called. -/
  | regDisable (idx : Nat)
  /-- `gpiod_set_value_cansleep(reset_gpio, v)` reached the physical line
      (`true` = reset asserted, `false` = de-asserted). -/
  | resetSet (asserted : Bool)
  /-- `udelay(us)`: microsecond busy-wait. -/
  | delayUs (us : Nat)
  /-- `msleep(ms)`: millisecond sleep. -/
  | delayMs (ms : Nat)
  /-- `mipi_dsi_dcs_enter_sleep_mode` DCS command attempted. -/
  | dcsEnterSleep
  /-- `mipi_dsi_dcs_set_tear_on(mode)` DCS command attempted. -/
  | dcsSetTearOn (mode : Nat)
  /-- `mipi_dsi_dcs_exit_sleep_mode` DCS command attempted. -/
  | dcsExitSleep
  /-- `mipi_dsi_dcs_set_display_on` DCS command attempted. -/
  | dcsDisplayOn
  /-- `mipi_dsi_dcs_set_display_off` DCS command attempted. -/
  | dcsDisplayOff
  deriving DecidableEq, Repr

/-- State of the hardware lines owned by the panel: the two supply rails
(`supply[0]` = "vddi", `supply[1]` = "vci") and the reset line
(`true` = asserted, i.e. panel held in reset). -/
structure HwState where
  supply0On : Bool
  supply1On : Bool
  resetAsserted : Bool
  deriving DecidableEq, Repr

/-- The per-device fields of `struct s6e3ha8` that the sequencer branches
on: `reset_gpio` is acquired with `devm_gpiod_get_optional`, so it may be
absent (NULL). -/
structure S6e3ha8 where
  hasResetGpio : Bool
  deriving DecidableEq, Repr

/-- Outcomes the external collaborators return for each fallible call made
by the sequencer (`0` = success, nonzero = error code), standing for the
test double of the regulator core and the DSI host. -/
structure Env where
  enable0Ret : Int
  enable1Ret : Int
  enterSleepRet : Int
  setTearOnRet : Int
  exitSleepRet : Int
  setDisplayOnRet : Int
  setDisplayOffRet : Int
  deriving DecidableEq, Repr

/-- `MIPI_DSI_DCS_TEAR_MODE_VBLANK` from `drm_mipi_dsi.h` (first value of
the tear-mode enum). -/
def MIPI_DSI_DCS_TEAR_MODE_VBLANK : Nat := 0

/-- Modelled from the spec: the reset-line handle is optional
(`devm_gpiod_get_optional`), and the GPIO consumer API (not under `src/`)
makes `gpiod_set_value_cansleep` on an absent (NULL) descriptor a harmless
no-op; on a present descriptor it drives the physical line. -/
def gpiod_set_value_cansleep (dev : S6e3ha8) (s : HwState) (v : Bool) :
    HwState × List Event :=
  if dev.hasResetGpio then ({ s with resetAsserted := v }, [Event.resetSet v])
  else (s, [])

/-- The regulator core's `regulator_enable(supply[idx])`: the call is
observed, and the rail comes up exactly when the core reports success. -/
def regulator_enable (idx : Nat) (ret : Int) (s : HwState) :
    Int × HwState × List Event :=
  if ret = 0 then
    (0,
     (if idx = 0 then { s with supply0On := true }
      else { s with supply1On := true }),
     [Event.regEnable idx])
  else (ret, s, [Event.regEnable idx])

/-- The regulator core's `regulator_disable(supply[idx])`; the driver
ignores its result, so only the state change and the call are modelled. -/
def regulator_disable (idx : Nat) (s : HwState) : HwState × List Event :=
  if idx = 0 then ({ s with supply0On := false }, [Event.regDisable 0])
  else ({ s with supply1On := false }, [Event.regDisable idx])

/-- `s6e3ha8_unprepare`: enter sleep mode (abort on failure), assert
RESET, then disable `supply[0]` and `supply[1]`, returning 0. -/
def s6e3ha8_unprepare (dev : S6e3ha8) (env : Env) (s : HwState) :
    Int × HwState × List Event :=
  if env.enterSleepRet ≠ 0 then (env.enterSleepRet, s, [Event.dcsEnterSleep])
  else
    let r1 := gpiod_set_value_cansleep dev s true
    let r2 := regulator_disable 0 r1.1
    let r3 := regulator_disable 1 r2.1
    (0, r3.1, [Event.dcsEnterSleep] ++ r1.2 ++ r2.2 ++ r3.2)

/-- `s6e3ha8_prepare`: enable `supply[0]` then `supply[1]` (each aborts on
failure), assert RESET, `udelay(10)`, de-assert RESET, `msleep(120)`, then
DCS set-tear-on(VBLANK) and DCS exit-sleep (each aborts on failure). -/
def s6e3ha8_prepare (dev : S6e3ha8) (env : Env) (s : HwState) :
    Int × HwState × List Event :=
  let r0 := regulator_enable 0 env.enable0Ret s
  if r0.1 ≠ 0 then (r0.1, r0.2.1, r0.2.2)
  else
    let r1 := regulator_enable 1 env.enable1Ret r0.2.1
    let t1 := r0.2.2 ++ r1.2.2
    if r1.1 ≠ 0 then (r1.1, r1.2.1, t1)
    else
      let g1 := gpiod_set_value_cansleep dev r1.2.1 true
      let g2 := gpiod_set_value_cansleep dev g1.1 false
      let t2 := t1 ++ g1.2 ++ [Event.delayUs 10] ++ g2.2 ++ [Event.delayMs 120]
      let t3 := t2 ++ [Event.dcsSetTearOn MIPI_DSI_DCS_TEAR_MODE_VBLANK]
      if env.setTearOnRet ≠ 0 then (env.setTearOnRet, g2.1, t3)
      else
        let t4 := t3 ++ [Event.dcsExitSleep]
        if env.exitSleepRet ≠ 0 then (env.exitSleepRet, g2.1, t4)
        else (0, g2.1, t4)

/-- `s6e3ha8_enable`: a single DCS set-display-on command; its result is
propagated, and no regulator or GPIO call is made. -/
def s6e3ha8_enable (env : Env) (s : HwState) : Int × HwState × List Event :=
  (env.setDisplayOnRet, s, [Event.dcsDisplayOn])

/-- `s6e3ha8_disable`: a single DCS set-display-off command; its result is
propagated, and no regulator or GPIO call is made. -/
def s6e3ha8_disable (env : Env) (s : HwState) : Int × HwState × List Event :=
  (env.setDisplayOffRet, s, [Event.dcsDisplayOff])

/-- `struct drm_display_mode`, restricted to the fields this driver sets. -/
structure drm_display_mode where
  clock : Nat
  hdisplay : Nat
  hsync_start : Nat
  hsync_end : Nat
  htotal : Nat
  vdisplay : Nat
  vsync_start : Nat
  vsync_end : Nat
  vtotal : Nat
  vrefresh : Nat
  width_mm : Nat
  height_mm : Nat
  type : Nat := 0
  deriving DecidableEq, Repr

/-- The fixed mode constant `samsung_s6e3ha8_mode`, with the literal
porch/sync arithmetic of the source. -/
def samsung_s6e3ha8_mode : drm_display_mode :=
  { clock := 342651
    hdisplay := 1440
    hsync_start := 1440 + 116
    hsync_end := 1440 + 116 + 44
    htotal := 1440 + 116 + 44 + 116
    vdisplay := 2960
    vsync_start := 2960 + 124
    vsync_end := 2960 + 124 + 120
    vtotal := 2960 + 124 + 120 + 124
    vrefresh := 60
    width_mm := 70
    height_mm := 144 }

/-- `DRM_MODE_TYPE_DRIVER` (1 << 6). -/
def DRM_MODE_TYPE_DRIVER : Nat := 64

/-- `DRM_MODE_TYPE_PREFERRED` (1 << 3). -/
def DRM_MODE_TYPE_PREFERRED : Nat := 8

/-- `-EINVAL`. -/
def EINVAL_NEG : Int := -22

/-- The fields of `struct drm_connector` that `s6e3ha8_get_modes`
touches: the display-info record and the probed-mode list. -/
structure drm_connector where
  info_name : String
  info_width_mm : Nat
  info_height_mm : Nat
  probed_modes : List drm_display_mode
  deriving DecidableEq, Repr

/-- The descriptor that `s6e3ha8_get_modes` registers: a duplicate of the
mode constant, marked driver-supplied and preferred. -/
def registered_mode : drm_display_mode :=
  { samsung_s6e3ha8_mode with
    type := DRM_MODE_TYPE_DRIVER + DRM_MODE_TYPE_PREFERRED }

/-- `s6e3ha8_get_modes`: copy the info name, duplicate the mode constant
(`dupOk = false` models `drm_mode_duplicate` returning NULL, giving
`-EINVAL`), set the mode type, propagate the physical dimensions, add the
mode to the connector's probed list, and return a count of 1. -/
def s6e3ha8_get_modes (dupOk : Bool) (conn : drm_connector) :
    Int × drm_connector :=
  let conn1 := { conn with info_name := "Samsung S6D16D0" }
  if dupOk then
    (1,
     { conn1 with
       info_width_mm := registered_mode.width_mm
       info_height_mm := registered_mode.height_mm
       probed_modes := conn1.probed_modes ++ [registered_mode] })
  else (EINVAL_NEG, conn1)

/-- Iterate successful `s6e3ha8_get_modes` calls `n` times. -/
def get_modes_iter : Nat → drm_connector → drm_connector
  | 0, c => c
  | n + 1, c => get_modes_iter n (s6e3ha8_get_modes true c).2

/-- `a` occurs strictly before every occurrence of `b` in the trace:
whenever a prefix of length `n` contains `b`, the prefix of length
`n - 1` already contains `a`. Decidable on concrete traces. -/
def strictlyPrecedes (tr : List Event) (a b : Event) : Prop :=
  ∀ n < tr.length + 1, b ∈ tr.take n → a ∈ tr.take (n - 1)

instance (tr : List Event) (a b : Event) :
    Decidable (strictlyPrecedes tr a b) := by
  unfold strictlyPrecedes
  infer_instance

/-- All-success environment. -/
def envAllOk : Env := ⟨0, 0, 0, 0, 0, 0, 0⟩

/-- A device whose optional reset GPIO was found. -/
def devGpio : S6e3ha8 := ⟨true⟩

/-- A device whose optional reset GPIO is absent (NULL descriptor). -/
def devNoGpio : S6e3ha8 := ⟨false⟩

/-- The nominal pre-Prepare hardware state: both supplies off, reset
asserted (the probe default). -/
def offState : HwState := ⟨false, false, true⟩

/-- The nominal post-Prepare hardware state: both supplies on, reset
de-asserted. -/
def onState : HwState := ⟨true, true, false⟩


/-- Minimum reset-pulse hold required by the panel, in microseconds: the
value the source holds with `udelay(10)`. -/
def RESET_PULSE_MIN_US : Nat := 10

/-- Minimum post-reset settle wait required before any DCS command, in
milliseconds: the value the source waits with `msleep(120)`. -/
def SETTLE_MIN_MS : Nat := 120

/-- Environment in which enabling `supply[1]` fails with `-5` and every
other collaborator call would succeed. -/
def envSupply1Fail : Env := ⟨0, -5, 0, 0, 0, 0, 0⟩

/-- Environment in which the enter-sleep DCS command fails with `-5`. -/
def envSleepFail : Env := ⟨0, 0, -5, 0, 0, 0, 0⟩

/-- Environment in which the set-tear-on DCS command fails with `-5`. -/
def envTearFail : Env := ⟨0, 0, 0, -5, 0, 0, 0⟩

/-- C1 counterexample: with the reset GPIO present, every collaborator
call succeeding and the panel powered, `s6e3ha8_unprepare` succeeds but
its effect trace is NOT sleep-enter, reset-assert, disable supply 1,
disable supply 0: the source disables `supply[0]` before `supply[1]`. -/
theorem unprepare_reverse_disable_order_cex :
    (s6e3ha8_unprepare devGpio envAllOk onState).1 = 0 ∧
    (s6e3ha8_unprepare devGpio envAllOk onState).2.2 ≠
      [Event.dcsEnterSleep, Event.resetSet true,
       Event.regDisable 1, Event.regDisable 0] := by
  decide

/-- C1 (amended): for every successful Unprepare call (reset GPIO
present), the observed effect sequence is exactly the sleep-enter DCS
command, then assertion of the reset line, then disabling of supply 0,
then disabling of supply 1 (the same order in which they were enabled),
and the operation returns success. -/
theorem unprepare_success_effect_sequence
    (dev : S6e3ha8) (env : Env) (s : HwState)
    (hg : dev.hasResetGpio = true) (h : env.enterSleepRet = 0) :
    (s6e3ha8_unprepare dev env s).1 = 0 ∧
    (s6e3ha8_unprepare dev env s).2.2 =
      [Event.dcsEnterSleep, Event.resetSet true,
       Event.regDisable 0, Event.regDisable 1] := by
  simp [s6e3ha8_unprepare, gpiod_set_value_cansleep, regulator_disable, hg, h]

/-- Witness for the amended C1 theorem at a concrete input. -/
theorem unprepare_success_effect_sequence_witness :
    (s6e3ha8_unprepare devGpio envAllOk onState).1 = 0 ∧
    (s6e3ha8_unprepare devGpio envAllOk onState).2.2 =
      [Event.dcsEnterSleep, Event.resetSet true,
       Event.regDisable 0, Event.regDisable 1] :=
  unprepare_success_effect_sequence devGpio envAllOk onState rfl rfl

/-- C2: with the reset GPIO present, both supplies initially off, the
reset line initially asserted, and every fallible step succeeding,
Prepare returns success and its effect trace is exactly: the two supply
enables, then one reset assert pulse held `udelay(10)` (at least the
minimum pulse width), one reset de-assert, one settle wait of
`msleep(120)` (at least the minimum settle delay), then exactly two DCS
commands in order: set-tear-on(VBLANK), exit-sleep. -/
theorem prepare_nominal_effect_sequence
    (dev : S6e3ha8) (env : Env) (s : HwState)
    (hg : dev.hasResetGpio = true)
    (_hs0 : s.supply0On = false) (_hs1 : s.supply1On = false)
    (_hsr : s.resetAsserted = true)
    (h0 : env.enable0Ret = 0) (h1 : env.enable1Ret = 0)
    (ht : env.setTearOnRet = 0) (he : env.exitSleepRet = 0) :
    (s6e3ha8_prepare dev env s).1 = 0 ∧
    (s6e3ha8_prepare dev env s).2.2 =
      [Event.regEnable 0, Event.regEnable 1,
       Event.resetSet true, Event.delayUs 10, Event.resetSet false,
       Event.delayMs 120,
       Event.dcsSetTearOn MIPI_DSI_DCS_TEAR_MODE_VBLANK,
       Event.dcsExitSleep] ∧
    RESET_PULSE_MIN_US ≤ 10 ∧ SETTLE_MIN_MS ≤ 120 := by
  refine ⟨?_, ?_, le_refl _, le_refl _⟩ <;>
    simp [s6e3ha8_prepare, regulator_enable, gpiod_set_value_cansleep,
      hg, h0, h1, ht, he]

/-- Witness for the C2 theorem at a concrete input. -/
theorem prepare_nominal_effect_sequence_witness :
    (s6e3ha8_prepare devGpio envAllOk offState).1 = 0 ∧
    (s6e3ha8_prepare devGpio envAllOk offState).2.2 =
      [Event.regEnable 0, Event.regEnable 1,
       Event.resetSet true, Event.delayUs 10, Event.resetSet false,
       Event.delayMs 120,
       Event.dcsSetTearOn MIPI_DSI_DCS_TEAR_MODE_VBLANK,
       Event.dcsExitSleep] ∧
    RESET_PULSE_MIN_US ≤ 10 ∧ SETTLE_MIN_MS ≤ 120 :=
  prepare_nominal_effect_sequence devGpio envAllOk offState
    rfl rfl rfl rfl rfl rfl rfl rfl

/-- C3: in every execution of Prepare (any device, any collaborator
outcomes, any starting state), supply 0 enable occurs strictly before
supply 1 enable, and each supply enable occurs strictly before any
de-assertion of the reset line. -/
theorem prepare_ordering_invariant (dev : S6e3ha8) (env : Env) (s : HwState) :
    strictlyPrecedes (s6e3ha8_prepare dev env s).2.2
      (Event.regEnable 0) (Event.regEnable 1) ∧
    strictlyPrecedes (s6e3ha8_prepare dev env s).2.2
      (Event.regEnable 0) (Event.resetSet false) ∧
    strictlyPrecedes (s6e3ha8_prepare dev env s).2.2
      (Event.regEnable 1) (Event.resetSet false) := by
  obtain ⟨g⟩ := dev
  rcases Decidable.em (env.enable0Ret = 0) with h0 | h0 <;>
    rcases Decidable.em (env.enable1Ret = 0) with h1 | h1 <;>
    rcases Decidable.em (env.setTearOnRet = 0) with ht | ht <;>
    rcases Decidable.em (env.exitSleepRet = 0) with he | he <;>
    cases g <;>
    simp [s6e3ha8_prepare, regulator_enable, gpiod_set_value_cansleep,
      h0, h1, ht, he] <;>
    decide

/-- C4: if enabling supply 0 succeeds and enabling supply 1 fails,
Prepare propagates the failure, supply 0 remains enabled (no rollback),
supply 1 is unchanged, and the effect trace holds only the two enable
calls: no reset-line toggle and no DCS command is attempted. -/
theorem prepare_supply1_failure_no_rollback
    (dev : S6e3ha8) (env : Env) (s : HwState)
    (h0 : env.enable0Ret = 0) (h1 : env.enable1Ret ≠ 0) :
    (s6e3ha8_prepare dev env s).1 = env.enable1Ret ∧
    (s6e3ha8_prepare dev env s).2.1.supply0On = true ∧
    (s6e3ha8_prepare dev env s).2.1.supply1On = s.supply1On ∧
    (s6e3ha8_prepare dev env s).2.2 =
      [Event.regEnable 0, Event.regEnable 1] := by
  simp [s6e3ha8_prepare, regulator_enable, h0, h1]

/-- Witness for the C4 theorem at a concrete input. -/
theorem prepare_supply1_failure_no_rollback_witness :
    (s6e3ha8_prepare devGpio envSupply1Fail offState).1 =
      envSupply1Fail.enable1Ret ∧
    (s6e3ha8_prepare devGpio envSupply1Fail offState).2.1.supply0On = true ∧
    (s6e3ha8_prepare devGpio envSupply1Fail offState).2.1.supply1On =
      offState.supply1On ∧
    (s6e3ha8_prepare devGpio envSupply1Fail offState).2.2 =
      [Event.regEnable 0, Event.regEnable 1] :=
  prepare_supply1_failure_no_rollback devGpio envSupply1Fail offState
    rfl (by decide)

/-- C5: if the enter-sleep DCS command fails, Unprepare propagates the
failure, the hardware state is completely unchanged (neither supply
disabled, reset not asserted), and only that one DCS attempt occurs. -/
theorem unprepare_sleep_failure_aborts
    (dev : S6e3ha8) (env : Env) (s : HwState)
    (h : env.enterSleepRet ≠ 0) :
    s6e3ha8_unprepare dev env s =
      (env.enterSleepRet, s, [Event.dcsEnterSleep]) := by
  simp [s6e3ha8_unprepare, h]

/-- Witness for the C5 theorem at a concrete input. -/
theorem unprepare_sleep_failure_aborts_witness :
    s6e3ha8_unprepare devGpio envSleepFail onState =
      (envSleepFail.enterSleepRet, onState, [Event.dcsEnterSleep]) :=
  unprepare_sleep_failure_aborts devGpio envSleepFail onState (by decide)

/-- C6: a successful DescribeModes call returns a count of exactly 1 and
appends to the probed list one descriptor with hdisplay 1440, vdisplay
2960, htotal 1716, vtotal 3328, width 70 mm, height 144 mm, 60 Hz
refresh; if the descriptor cannot be duplicated it returns `-EINVAL`. -/
theorem get_modes_descriptor_and_count (conn : drm_connector) :
    (s6e3ha8_get_modes true conn).1 = 1 ∧
    (s6e3ha8_get_modes true conn).2.probed_modes =
      conn.probed_modes ++ [registered_mode] ∧
    registered_mode.hdisplay = 1440 ∧ registered_mode.vdisplay = 2960 ∧
    registered_mode.htotal = 1716 ∧ registered_mode.vtotal = 3328 ∧
    registered_mode.width_mm = 70 ∧ registered_mode.height_mm = 144 ∧
    registered_mode.vrefresh = 60 ∧
    (s6e3ha8_get_modes false conn).1 = EINVAL_NEG := by
  refine ⟨rfl, rfl, ?_, ?_, ?_, ?_, ?_, ?_, ?_, rfl⟩ <;> decide

/-- C7: DescribeModes is idempotent. Every successful invocation returns
count 1, and iterating it any number of times appends only copies of the
one immutable descriptor `registered_mode`, identical on every call. -/
theorem get_modes_idempotent :
    (∀ c : drm_connector, (s6e3ha8_get_modes true c).1 = 1) ∧
    (∀ (n : Nat) (c : drm_connector),
      (get_modes_iter n c).probed_modes =
        c.probed_modes ++ List.replicate n registered_mode) := by
  constructor
  · intro c; rfl
  · intro n
    induction n with
    | zero => intro c; simp [get_modes_iter]
    | succ n ih =>
        intro c
        simp [get_modes_iter, s6e3ha8_get_modes, ih, List.replicate_succ]

/-- C8: Enable issues exactly one DCS command (set-display-on) and
Disable exactly one (set-display-off); each propagates the link result
verbatim and leaves the supply/reset hardware state untouched in every
execution. -/
theorem enable_disable_single_dcs_frame (env : Env) (s : HwState) :
    s6e3ha8_enable env s = (env.setDisplayOnRet, s, [Event.dcsDisplayOn]) ∧
    s6e3ha8_disable env s = (env.setDisplayOffRet, s, [Event.dcsDisplayOff]) :=
  ⟨rfl, rfl⟩

/-- C9: with the optional reset GPIO absent, every reset-line set is a
no-op (state unchanged, no physical effect), Prepare and Unprepare return
exactly the same code as with the GPIO present for every collaborator
outcome, and both succeed when every fallible step succeeds. -/
theorem missing_reset_gpio_noop_safe (env : Env) (s : HwState) :
    (∀ v, gpiod_set_value_cansleep devNoGpio s v = (s, [])) ∧
    (s6e3ha8_prepare devNoGpio env s).1 = (s6e3ha8_prepare devGpio env s).1 ∧
    (s6e3ha8_unprepare devNoGpio env s).1 =
      (s6e3ha8_unprepare devGpio env s).1 ∧
    (s6e3ha8_prepare devNoGpio envAllOk s).1 = 0 ∧
    (s6e3ha8_unprepare devNoGpio envAllOk s).1 = 0 := by
  refine ⟨fun v => rfl, ?_, ?_, rfl, rfl⟩
  · rcases Decidable.em (env.enable0Ret = 0) with h0 | h0 <;>
      rcases Decidable.em (env.enable1Ret = 0) with h1 | h1 <;>
      rcases Decidable.em (env.setTearOnRet = 0) with ht | ht <;>
      rcases Decidable.em (env.exitSleepRet = 0) with he | he <;>
      simp [s6e3ha8_prepare, regulator_enable, gpiod_set_value_cansleep,
        devGpio, devNoGpio, h0, h1, ht, he]
  · rcases Decidable.em (env.enterSleepRet = 0) with hs | hs <;>
      simp [s6e3ha8_unprepare, gpiod_set_value_cansleep, regulator_disable,
        devGpio, devNoGpio, hs]

/-- C10: with both supplies enabled and the set-tear-on or the exit-sleep
DCS command failing, Prepare returns that nonzero failure and leaves both
supplies enabled and the reset line de-asserted: no rollback of power or
reset state on a mid-sequence DCS failure. -/
theorem prepare_dcs_failure_no_rollback
    (dev : S6e3ha8) (env : Env) (s : HwState)
    (hg : dev.hasResetGpio = true)
    (h0 : env.enable0Ret = 0) (h1 : env.enable1Ret = 0)
    (hf : env.setTearOnRet ≠ 0 ∨ env.exitSleepRet ≠ 0) :
    ((s6e3ha8_prepare dev env s).1 = env.setTearOnRet ∨
     (s6e3ha8_prepare dev env s).1 = env.exitSleepRet) ∧
    (s6e3ha8_prepare dev env s).1 ≠ 0 ∧
    (s6e3ha8_prepare dev env s).2.1.supply0On = true ∧
    (s6e3ha8_prepare dev env s).2.1.supply1On = true ∧
    (s6e3ha8_prepare dev env s).2.1.resetAsserted = false := by
  rcases Decidable.em (env.setTearOnRet = 0) with ht | ht
  · have he : env.exitSleepRet ≠ 0 := hf.resolve_left (fun hA => hA ht)
    simp [s6e3ha8_prepare, regulator_enable, gpiod_set_value_cansleep,
      hg, h0, h1, ht, he]
  · simp [s6e3ha8_prepare, regulator_enable, gpiod_set_value_cansleep,
      hg, h0, h1, ht]

/-- Witness for the C10 theorem at a concrete input. -/
theorem prepare_dcs_failure_no_rollback_witness :
    ((s6e3ha8_prepare devGpio envTearFail offState).1 =
       envTearFail.setTearOnRet ∨
     (s6e3ha8_prepare devGpio envTearFail offState).1 =
       envTearFail.exitSleepRet) ∧
    (s6e3ha8_prepare devGpio envTearFail offState).1 ≠ 0 ∧
    (s6e3ha8_prepare devGpio envTearFail offState).2.1.supply0On = true ∧
    (s6e3ha8_prepare devGpio envTearFail offState).2.1.supply1On = true ∧
    (s6e3ha8_prepare devGpio envTearFail offState).2.1.resetAsserted = false :=
  prepare_dcs_failure_no_rollback devGpio envTearFail offState
    rfl rfl rfl (Or.inl (by decide))

end S6e3ha8Panel
